import Mathlib

/-!
Verification of the anagram/vocabulary word-game engine
(`src/vocab/flask_vocab.py`).

The Flask handlers `index`, `keep_going` and `check` are embedded as pure
functions over an explicit session state.  The helper modules
`src.letterbag` (`LetterBag`), `src.vocab` (`Vocab`) and `src.jumble`
(`jumbled`) are not part of the available sources, so those pieces are
modelled from the specification text, as marked in their doc comments.
A missing request parameter (`request.args.get` returning `None`) is
embedded as `Option.none`.
-/

namespace AnagramGame

/-- Modelled from the spec: `src.letterbag.LetterBag` is missing from the
sources.  §3: "a mapping from character to occurrence count, built from an
input string"; we keep the source string and derive counts from it. -/
structure LetterBag where
  source : String
deriving DecidableEq, Repr

/-- Occurrence count of a character in a string. -/
def strCount (s : String) (c : Char) : Nat :=
  s.toList.count c

/-- Modelled from the spec: §4.1 — `contains(candidate)` is "true iff, for
every character in `candidate`, the count of that character in `candidate`
is ≤ the count in `self`"; case-sensitive, pure. -/
def LetterBag.contains (b : LetterBag) (cand : String) : Bool :=
  cand.toList.all (fun c => strCount cand c ≤ strCount b.source c)

/-- Modelled from the spec: §7 — "Missing or malformed candidate text
(null/absent) is not an error"; the containment query applied to an absent
candidate yields `false` rather than raising. -/
def LetterBag.containsOpt (b : LetterBag) (t : Option String) : Bool :=
  match t with
  | none => false
  | some s => b.contains s

/-- Modelled from the spec: `src.vocab.Vocab.has` is missing from the
sources.  §4.2: "exact-match membership test.  Must tolerate `None`/missing
input by returning false rather than raising."  The vocabulary is taken as
its deduplicated word list (`as_list()`). -/
def vocabHas (vocab : List String) (w : Option String) : Bool :=
  match w with
  | none => false
  | some s => vocab.contains s

/-- Seed post-processing at module load (`flask_vocab.py` lines 34-38):
`SEED = int(CONFIG.SEED)` with `ValueError` mapped to `None`.  The parse
result is taken as given (`none` = absent or unparsable). -/
abbrev ParsedSeed := Option Int

/-- The seed expression passed to the jumbler (`flask_vocab.py` line 53):
`None if not SEED or SEED < 0 else SEED`.  Python's `not SEED` is true for
`None` and for `0`. -/
def effectiveSeed (s : ParsedSeed) : Option Int :=
  match s with
  | none => none
  | some v => if v == 0 || v < 0 then none else some v

/-- Modelled from the spec: `src.jumble.jumbled` is missing from the
sources.  §4.3: fail (`InvalidArgument`) if `count ≤ 0`; otherwise select
the first `count` words ("the reference behavior") and emit a permutation
of their combined letters.  The permutation produced by the seeded PRNG is
outside the embedded core; it is modelled as the identity permutation,
which no verified property depends on. -/
def jumbled (words : List String) (count : Int) (_seed : Option Int) :
    Option String :=
  if count ≤ 0 then none
  else some (String.join (words.take count.toNat))

/-- Per-player session state: the cookie fields `jumble`, `target_count`
and `matches` set by `index` and read by `check`. -/
structure Session where
  jumble : String
  target_count : Int
  matchList : List String
deriving DecidableEq, Repr

/-- The tagged submission outcomes produced by `check` (one per `return`
branch; `internalError` stands for the `assert False` branch). -/
inductive Outcome where
  | success
  | newMatch (w : Option String)
  | alreadyFound (w : Option String)
  | notInVocabulary (w : Option String)
  | notFromJumbleLetters (w : Option String) (jumble : String)
  | internalError
deriving DecidableEq, Repr

/-- Python's `text in matches` where `text` may be `None`: `None` is never
an element of a list of strings. -/
def optMem (text : Option String) (found : List String) : Bool :=
  match text with
  | none => false
  | some s => found.contains s

/-- The `/_check` handler (`flask_vocab.py` lines 89-148) as a pure
function: reads the candidate `text` and the session, classifies the
candidate, and returns the outcome together with the updated session
(only the new-match branch writes `session["matches"]`). -/
def check (vocab : List String) (sess : Session) (text : Option String) :
    Outcome × Session :=
  let in_jumble := (LetterBag.mk sess.jumble).containsOpt text
  let matched := vocabHas vocab text
  let result := (sess.matchList.length : Int) ≥ sess.target_count
  if result then
    (.success, sess)
  else if matched && in_jumble && !(optMem text sess.matchList) then
    (.newMatch text, { sess with matchList := sess.matchList ++ text.toList })
  else if optMem text sess.matchList then
    (.alreadyFound text, sess)
  else if !matched then
    (.notInVocabulary text, sess)
  else if !in_jumble then
    (.notFromJumbleLetters text sess.jumble, sess)
  else
    (.internalError, sess)

/-- The `/` handler (`flask_vocab.py` lines 46-59) as a pure function:
sets `target_count = min(len(vocab), SUCCESS_AT_COUNT)`, builds the jumble
with the effective seed, resets `matches`, and runs the two `assert`
statements (a failing assert aborts the request, modelled as `none`). -/
def index (vocab : List String) (threshold : Int) (seed : ParsedSeed) :
    Option Session :=
  let target := min (vocab.length : Int) threshold
  match jumbled vocab target (effectiveSeed seed) with
  | none => none
  | some j =>
    let sess : Session := { jumble := j, target_count := target, matchList := [] }
    if sess.matchList = [] ∧ sess.target_count > 0 then some sess else none

/-- The `/_keep_going` handler (`flask_vocab.py` lines 62-77) as a pure
function: answers only `WORDS.has(text)`; the session is neither read nor
written, which the embedding records by returning it untouched. -/
def keep_going (vocab : List String) (sess : Session) (text : Option String) :
    Bool × Session :=
  (vocabHas vocab text, sess)

/-- Run a whole game: a `start` followed by a sequence of submissions. -/
def runSession (vocab : List String) (sess : Session)
    (texts : List (Option String)) : Session :=
  texts.foldl (fun s t => (check vocab s t).2) sess

/-- The session invariant claimed in §3: the matches list never exceeds
the target, has no duplicates, and every entry is vocabulary-valid and
jumble-derivable. -/
def SessionInv (vocab : List String) (sess : Session) : Prop :=
  (sess.matchList.length : Int) ≤ sess.target_count
  ∧ sess.matchList.Nodup
  ∧ ∀ w ∈ sess.matchList,
      vocabHas vocab (some w) = true
      ∧ (LetterBag.mk sess.jumble).contains w = true

/-! ## Helper lemmas -/

/-- Elimination for a successful `index`: the stored target is the min of
vocabulary size and threshold, the assert guarantees it is positive, and
the matches list starts empty. -/
theorem index_eq_some (vocab : List String) (threshold : Int)
    (seed : ParsedSeed) (sess : Session)
    (h : index vocab threshold seed = some sess) :
    sess.target_count = min (vocab.length : Int) threshold
    ∧ 0 < sess.target_count ∧ sess.matchList = [] := by
  unfold index jumbled at h
  by_cases hc : min (vocab.length : Int) threshold ≤ 0
  · simp [hc] at h
  · simp [hc, not_le.mp hc] at h
    subst h
    exact ⟨rfl, not_le.mp hc, rfl⟩

/-- Each submission preserves the session invariant. -/
theorem check_preserves_inv (vocab : List String) (sess : Session)
    (text : Option String) (h : SessionInv vocab sess) :
    SessionInv vocab (check vocab sess text).2 := by
  obtain ⟨hlen, hnd, hmem⟩ := h
  simp only [check]
  split_ifs with h1 h2 h3 h4 h5
  · exact ⟨hlen, hnd, hmem⟩
  · cases text with
    | none => simp [vocabHas] at h2
    | some w =>
      have hv : vocabHas vocab (some w) = true := by
        simpa using (Bool.and_elim_left (Bool.and_elim_left h2))
      have hj : (LetterBag.mk sess.jumble).containsOpt (some w) = true := by
        simpa using (Bool.and_elim_right (Bool.and_elim_left h2))
      have hnotmem : w ∉ sess.matchList := by
        have := Bool.and_elim_right h2
        simpa [optMem, List.contains, List.elem_eq_mem] using this
      refine ⟨?_, ?_, ?_⟩
      · have hlt : (sess.matchList.length : Int) < sess.target_count :=
          not_le.mp h1
        simp only [Session.mk.injEq, List.length_append, Option.toList_some,
          List.length_singleton]
        push_cast
        omega
      · simpa [List.nodup_append] using ⟨hnd, hnotmem⟩
      · intro u hu
        simp only [Option.toList_some, List.mem_append,
          List.mem_singleton] at hu
        rcases hu with hu | hu
        · exact hmem u hu
        · subst hu
          exact ⟨hv, by simpa [LetterBag.containsOpt] using hj⟩
  · exact ⟨hlen, hnd, hmem⟩
  · exact ⟨hlen, hnd, hmem⟩
  · exact ⟨hlen, hnd, hmem⟩
  · exact ⟨hlen, hnd, hmem⟩

/-- `runSession` preserves the session invariant. -/
theorem runSession_preserves_inv (vocab : List String)
    (texts : List (Option String)) :
    ∀ sess : Session, SessionInv vocab sess →
      SessionInv vocab (runSession vocab sess texts) := by
  induction texts with
  | nil => intro sess h; exact h
  | cons t ts ih =>
    intro sess h
    exact ih _ (check_preserves_inv vocab sess t h)

/-! ## Claims -/

/-- C1: while the session quota is already met
(`len(matches) >= target_count`), `check` returns the success/redirect
outcome with the session unchanged, for every candidate (including a
missing one) and every vocabulary — the quota check decides the outcome
before vocabulary membership or jumble containment can influence it. -/
theorem quota_met_submit_success (vocab : List String) (sess : Session)
    (text : Option String)
    (h : (sess.matchList.length : Int) ≥ sess.target_count) :
    check vocab sess text = (.success, sess) := by
  simp [check, h]

theorem quota_met_submit_success_witness :
    (((["cat"] : List String).length : Int) ≥ (1 : Int))
    ∧ check ["cat"] ⟨"tac", 1, ["cat"]⟩ (some "zzz")
        = (.success, ⟨"tac", 1, ["cat"]⟩) :=
  ⟨by decide,
   quota_met_submit_success ["cat"] ⟨"tac", 1, ["cat"]⟩ (some "zzz")
     (by decide)⟩

/-- C2: while the quota is not yet met, a candidate that is a vocabulary
member, whose letters fit in the jumble, and that is not yet in `matches`,
is appended (exactly it, at the end) and the new-match outcome for it is
returned. -/
theorem new_match_appends (vocab : List String) (sess : Session) (w : String)
    (hq : (sess.matchList.length : Int) < sess.target_count)
    (hv : vocabHas vocab (some w) = true)
    (hj : (LetterBag.mk sess.jumble).contains w = true)
    (hm : w ∉ sess.matchList) :
    check vocab sess (some w) =
      (.newMatch (some w),
        { sess with matchList := sess.matchList ++ [w] }) := by
  have h1 : ¬ ((sess.matchList.length : Int) ≥ sess.target_count) :=
    not_le.mpr hq
  simp [check, h1, LetterBag.containsOpt, hv, hj, optMem, List.contains,
    List.elem_eq_mem, hm]

theorem new_match_appends_witness :
    (((([] : List String).length : Int) < (1 : Int))
      ∧ vocabHas ["cat"] (some "cat") = true
      ∧ (LetterBag.mk "tac").contains "cat" = true
      ∧ "cat" ∉ ([] : List String))
    ∧ check ["cat"] ⟨"tac", 1, []⟩ (some "cat")
        = (.newMatch (some "cat"), ⟨"tac", 1, ["cat"]⟩) :=
  ⟨⟨by decide, by decide, by decide, by decide⟩,
   new_match_appends ["cat"] ⟨"tac", 1, []⟩ "cat"
     (by decide) (by decide) (by decide) (by decide)⟩

/-- C3: while the quota is not yet met, every submission lands in exactly
one of the four classification outcomes (new match, already found, not in
vocabulary, not from jumble letters), and the `assert False` branch is
unreachable. -/
theorem classification_exhaustive (vocab : List String) (sess : Session)
    (text : Option String)
    (hq : (sess.matchList.length : Int) < sess.target_count) :
    ((check vocab sess text).1 = .newMatch text
      ∨ (check vocab sess text).1 = .alreadyFound text
      ∨ (check vocab sess text).1 = .notInVocabulary text
      ∨ (check vocab sess text).1 = .notFromJumbleLetters text sess.jumble)
    ∧ (check vocab sess text).1 ≠ .internalError := by
  have h1 : ¬ ((sess.matchList.length : Int) ≥ sess.target_count) :=
    not_le.mpr hq
  simp only [check, h1, if_false]
  split_ifs with h2 h3 h4 h5
  · exact ⟨Or.inl rfl, by simp⟩
  · exact ⟨Or.inr (Or.inl rfl), by simp⟩
  · exact ⟨Or.inr (Or.inr (Or.inl rfl)), by simp⟩
  · exact ⟨Or.inr (Or.inr (Or.inr rfl)), by simp⟩
  · exfalso
    have hm : vocabHas vocab text = true := by simpa using h4
    have hj : (LetterBag.mk sess.jumble).containsOpt text = true := by
      simpa using h5
    have ho : optMem text sess.matchList = false := by simpa using h3
    simp [hm, hj, ho] at h2

theorem classification_exhaustive_witness :
    ((([] : List String).length : Int) < (1 : Int))
    ∧ (((check ["cat"] ⟨"tac", 1, []⟩ (some "zzz")).1
          = .newMatch (some "zzz")
        ∨ (check ["cat"] ⟨"tac", 1, []⟩ (some "zzz")).1
            = .alreadyFound (some "zzz")
        ∨ (check ["cat"] ⟨"tac", 1, []⟩ (some "zzz")).1
            = .notInVocabulary (some "zzz")
        ∨ (check ["cat"] ⟨"tac", 1, []⟩ (some "zzz")).1
            = .notFromJumbleLetters (some "zzz") "tac")
      ∧ (check ["cat"] ⟨"tac", 1, []⟩ (some "zzz")).1 ≠ .internalError) :=
  ⟨by decide,
   classification_exhaustive ["cat"] ⟨"tac", 1, []⟩ (some "zzz") (by decide)⟩

/-- C4: every session reachable by a successful start followed by any
sequence of submissions satisfies the invariant: `len(matches)` never
exceeds the target, the matches list has no duplicates, and every entry
is vocabulary-valid and jumble-derivable. -/
theorem session_invariant_reachable (vocab : List String) (threshold : Int)
    (seed : ParsedSeed) (sess : Session) (texts : List (Option String))
    (h : index vocab threshold seed = some sess) :
    SessionInv vocab (runSession vocab sess texts) := by
  obtain ⟨-, hpos, hempty⟩ := index_eq_some vocab threshold seed sess h
  refine runSession_preserves_inv vocab texts sess ?_
  refine ⟨?_, ?_, ?_⟩
  · rw [hempty]; simpa using le_of_lt hpos
  · rw [hempty]; exact List.nodup_nil
  · rw [hempty]; intro w hw; cases hw

theorem session_invariant_reachable_witness :
    index ["cat", "dog"] 2 none = some ⟨"catdog", 2, []⟩
    ∧ SessionInv ["cat", "dog"]
        (runSession ["cat", "dog"] ⟨"catdog", 2, []⟩
          [some "cat", some "cat", none, some "cat"]) :=
  ⟨by decide,
   session_invariant_reachable ["cat", "dog"] 2 none ⟨"catdog", 2, []⟩
     [some "cat", some "cat", none, some "cat"] (by decide)⟩

/-- C5: letter-multiset containment holds iff every character of the
candidate occurs in the candidate no more often than in the bag;
in particular `contains` is reflexive and counts repeated letters
("aa" against a bag with a single "a" is rejected). -/
theorem letterbag_contains_spec (b cand : String) :
    ((LetterBag.mk b).contains cand = true ↔
      ∀ c ∈ cand.toList, strCount cand c ≤ strCount b c)
    ∧ (LetterBag.mk cand).contains cand = true
    ∧ (LetterBag.mk "a").contains "aa" = false := by
  refine ⟨?_, ?_, by decide⟩
  · simp [LetterBag.contains]
  · simp [LetterBag.contains]

/-- C6: a successful start stores
`target_count = min(len(vocabulary), threshold)`, and the target is
positive whenever the vocabulary is non-empty. -/
theorem start_target_count (vocab : List String) (threshold : Int)
    (seed : ParsedSeed) (sess : Session)
    (h : index vocab threshold seed = some sess) :
    sess.target_count = min (vocab.length : Int) threshold
    ∧ (vocab ≠ [] → 0 < sess.target_count) := by
  obtain ⟨hmin, hpos, -⟩ := index_eq_some vocab threshold seed sess h
  exact ⟨hmin, fun _ => hpos⟩

theorem start_target_count_witness :
    index ["cat", "dog"] 5 none = some ⟨"catdog", 2, []⟩
    ∧ ((⟨"catdog", 2, []⟩ : Session).target_count
          = min ((["cat", "dog"] : List String).length : Int) 5
        ∧ ((["cat", "dog"] : List String) ≠ [] →
            0 < (⟨"catdog", 2, []⟩ : Session).target_count)) :=
  ⟨by decide,
   start_target_count ["cat", "dog"] 5 none ⟨"catdog", 2, []⟩ (by decide)⟩

/-- C7: a missing (`None`) candidate is not an error: vocabulary
membership answers `false`, and while the quota is not met the submission
is classified as the ordinary not-in-vocabulary outcome with the session
unchanged. -/
theorem missing_candidate_not_in_vocabulary (vocab : List String)
    (sess : Session)
    (hq : (sess.matchList.length : Int) < sess.target_count) :
    vocabHas vocab none = false
    ∧ check vocab sess none = (.notInVocabulary none, sess) := by
  have h1 : ¬ ((sess.matchList.length : Int) ≥ sess.target_count) :=
    not_le.mpr hq
  exact ⟨rfl, by simp [check, h1, vocabHas, LetterBag.containsOpt, optMem]⟩

theorem missing_candidate_not_in_vocabulary_witness :
    ((([] : List String).length : Int) < (1 : Int))
    ∧ (vocabHas ["cat"] none = false
      ∧ check ["cat"] ⟨"tac", 1, []⟩ none
          = (.notInVocabulary none, ⟨"tac", 1, []⟩)) :=
  ⟨by decide,
   missing_candidate_not_in_vocabulary ["cat"] ⟨"tac", 1, []⟩ (by decide)⟩

/-- C8 counterexample: the claim says the jumbler is seeded exactly when
the parsed seed is a non-null, non-negative integer; at the concrete
parsed seed `0` (non-null and non-negative) the code passes `None`
(unseeded), because Python's `not SEED` is true for `0`. -/
theorem effective_seed_zero_counterexample :
    ¬ (effectiveSeed (some 0) = some 0 ↔
        ((some 0 : ParsedSeed) = some 0 ∧ (0 : Int) ≥ 0)) := by
  decide

/-- C8 amended: the jumbler is invoked with seed `v` exactly when the
parsed seed is a non-null, strictly positive integer `v`; when the seed is
absent, unparsable, zero, or negative, the generator is invoked unseeded. -/
theorem effective_seed_spec (s : ParsedSeed) (v : Int) :
    effectiveSeed s = some v ↔ s = some v ∧ 0 < v := by
  cases s with
  | none => simp [effectiveSeed]
  | some u =>
    simp only [effectiveSeed]
    split_ifs with h
    · simp only [beq_iff_eq, Bool.or_eq_true, decide_eq_true_eq] at h
      constructor
      · intro hc; cases hc
      · rintro ⟨hu, hv⟩
        injection hu with hu
        omega
    · simp only [beq_iff_eq, Bool.or_eq_true, decide_eq_true_eq,
        not_or, not_lt] at h
      constructor
      · rintro hc
        injection hc with hc
        subst hc
        exact ⟨rfl, lt_of_le_of_ne h.2 (Ne.symm h.1)⟩
      · rintro ⟨hu, -⟩
        injection hu with hu
        subst hu
        rfl

/-- C9: the keystroke-feedback query answers exactly vocabulary
membership, gives the same answer in any two session states, and leaves
the session (in particular its matches list) untouched. -/
theorem peek_vocab_only (vocab : List String) (s1 s2 : Session)
    (text : Option String) :
    (keep_going vocab s1 text).1 = vocabHas vocab text
    ∧ (keep_going vocab s1 text).1 = (keep_going vocab s2 text).1
    ∧ (keep_going vocab s1 text).2 = s1 :=
  ⟨rfl, rfl, rfl⟩

/-- C10: a submission either leaves the whole session state unchanged, or
its outcome is the new-match outcome and the only change is appending the
candidate to the matches list (jumble and target are preserved by the
record update). -/
theorem check_frame (vocab : List String) (sess : Session)
    (text : Option String) :
    (check vocab sess text).2 = sess
    ∨ ((check vocab sess text).1 = .newMatch text
        ∧ (check vocab sess text).2 =
            { sess with matchList := sess.matchList ++ text.toList }) := by
  simp only [check]
  split_ifs
  · exact Or.inl rfl
  · exact Or.inr ⟨rfl, rfl⟩
  · exact Or.inl rfl
  · exact Or.inl rfl
  · exact Or.inl rfl
  · exact Or.inl rfl

end AnagramGame
